import Mathlib

/-!
Verification of the document-service upload/validation/storage pipeline.

The Python sources are shallowly embedded:
* filenames and storage paths are `List Char` (so that the character-level
  replacements of `sanitize_filename` are faithful);
* raw file bytes are `List Nat` (only length, emptiness and the hash of the
  content matter to the embedded code);
* MIME types are `String` (only lower-casing, equality and allow-list
  membership are used);
* external collaborators (libmagic content sniffing, ClamAV scanning,
  hashlib's SHA-256, S3 and MongoDB call outcomes) are inputs to the
  embedded functions: the sniffed type is a `String` argument, the scanner
  verdict a `ScanResult` argument, the hash a function argument, and the
  per-attempt success of the two backend writes a `Nat → AttemptEnv`
  environment;
* the `service_config` dict is modelled with its `max_file_size_mb`
  entry as an `Option Nat`, because `config.py` defines that key only in
  `storage_config`: in the wired configuration the entry is absent and
  the validator's lookup of it raises `KeyError`.
-/

abbrev Bytes := List Nat

abbrev Chars := List Char

deriving instance DecidableEq for Except

/-- `'..' in s` — Python substring test for the traversal sequence,
used by `document.py` (lines 116, 128) and `storage_service.py`
(lines 154, 200, 239). -/
def hasDotDot : Chars → Bool
  | [] => false
  | [_] => false
  | a :: b :: rest => (a = '.' && b = '.') || hasDotDot (b :: rest)

/-- `s.startswith("documents/")` from `storage_service.py`. -/
def startsWithDocuments (l : Chars) : Bool :=
  List.isPrefixOf ("documents/").toList l

/-- `os.path.basename` (POSIX): the part of the path after the last `/`. -/
def basename (l : Chars) : Chars :=
  (l.reverse.takeWhile (fun c => c ≠ '/')).reverse

/-- `filename.replace(c, '')` for a single character `c`. -/
def removeChar (c : Char) (l : Chars) : Chars :=
  l.filter (fun x => x ≠ c)

/-- `filename.replace('..', '')`: delete non-overlapping occurrences of
`..`, scanning left to right, as Python `str.replace` does. -/
def replaceDotDot : Chars → Chars
  | [] => []
  | [c] => [c]
  | a :: b :: rest =>
    if a = '.' ∧ b = '.' then replaceDotDot rest
    else a :: replaceDotDot (b :: rest)

/-- The single-character entries of `forbidden_chars` in
`file_validator.py` line 152 that follow the `'..'` entry, in source
order. (`'/'`, `'\\'` and `'..'` are handled before them.) -/
def forbiddenAfterDotDot : List Char :=
  [';', '&', '|', '*', '?', '<', '>', '^', '$']

/-- `sanitize_filename` from `file_validator.py` lines 138-156:
`os.path.basename`, then `str.replace(x, '')` for each entry of
`forbidden_chars = ['/', '\\', '..', ';', '&', '|', '*', '?', '<', '>',
'^', '$']` in that order. -/
def sanitize_filename (filename : Chars) : Chars :=
  let f := basename filename
  let f := removeChar '/' f
  let f := removeChar '\\' f
  let f := replaceDotDot f
  forbiddenAfterDotDot.foldl (fun acc c => removeChar c acc) f

/-- The `service_config` entries read by `file_validator.py`.
`max_file_size_mb` is an `Option` because `file_validator.py` line 81
looks the key up in `service_config`, but `config.py` defines it only
in `storage_config` (line 57): in the program as wired the entry is
absent (`none`) and the lookup raises `KeyError`. -/
structure ServiceConfig where
  allowed_mime_types : List String
  max_file_size_mb : Option Nat
  virus_scan_enabled : Bool
deriving DecidableEq, Repr

/-- Verdict of the external ClamAV scanner (`scan_for_viruses`): the
scanner either reports `OK`, reports an infection with a signature name,
or the call itself raises. -/
inductive ScanResult
  | clean
  | infected (sig : String)
  | failure (msg : String)
deriving DecidableEq, Repr

/-- Python `str.lower()` (ASCII case folding of the characters). -/
def pyLower (s : String) : String :=
  String.mk (s.data.map Char.toLower)

/-- `validate_mime_type` from `file_validator.py` lines 33-67.  The
content-sniffed type (`magic.Magic(mime=True).from_buffer(...)`) is an
input, `detected_mime_type`.  The mismatch check (line 50) runs before
the allow-list check (line 56); both compare lower-cased strings. -/
def validate_mime_type (cfg : ServiceConfig)
    (detected_mime_type claimed_mime_type : String) : Bool × String :=
  if pyLower detected_mime_type ≠ pyLower claimed_mime_type then
    (false, "MIME type mismatch: claimed " ++ claimed_mime_type
      ++ ", detected " ++ detected_mime_type)
  else if ¬ ((cfg.allowed_mime_types.map pyLower).contains
      (pyLower detected_mime_type)) then
    (false, "MIME type " ++ detected_mime_type ++ " not allowed")
  else
    (true, "")

/-- The failure reason of `validate_file_size` (`file_validator.py`
line 84); the f-string interpolation of the two numeric values is
elided, keeping the size-specific message distinct from every other
stage's reason. -/
def sizeExceededMsg : String :=
  "File size exceeds maximum allowed size"

/-- `validate_file_size` from `file_validator.py` lines 69-89: converts
the byte length to megabytes (`file_size_bytes / (1024 * 1024)`, exact
division modelled in `ℚ` — it cannot fail), then reads
`service_config['max_file_size_mb']` and compares.  When the key is
absent — as it is in the wired configuration — the dict lookup raises
`KeyError('max_file_size_mb')`, whose Python `str()` is
`"'max_file_size_mb'"`, modelled as the `Except.error` payload. -/
def validate_file_size (cfg : ServiceConfig) (file_size_bytes : Nat) :
    Except String (Bool × String) :=
  match cfg.max_file_size_mb with
  | none => Except.error "'max_file_size_mb'"
  | some max_size_mb =>
    if (file_size_bytes : ℚ) / (1024 * 1024) > (max_size_mb : ℚ) then
      Except.ok (false, sizeExceededMsg)
    else
      Except.ok (true, "")

/-- The metadata dictionary built by `validate_file`
(`file_validator.py` lines 171-178); `validation_time_ms` is wall-clock
diagnostics and is not modelled. -/
structure FileMetadata where
  original_filename : Chars
  sanitized_filename : Chars
  file_size_bytes : Nat
  mime_type : String
  file_hash : String
deriving DecidableEq, Repr

/-- `validate_file` from `file_validator.py` lines 158-221: emptiness
check, filename sanitization, MIME validation, size validation, content
hash, then the config-gated virus scan.  `hashFn` stands for
`hashlib.sha256(...).hexdigest()` (an external library call) and
`scan` for the ClamAV verdict.  The whole body runs inside
`try/except`: the only raising stage is the size check (its config
lookup), and the handler at lines 217-221 converts the exception into
the return `(False, "File validation error: " ++ str(e), metadata)`
with the metadata accumulated so far. -/
def validate_file (cfg : ServiceConfig) (hashFn : Bytes → String)
    (detected_mime_type : String) (scan : ScanResult)
    (file_content : Bytes) (mime_type : String) (file_name : Chars) :
    Bool × String × FileMetadata :=
  let metadata : FileMetadata :=
    { original_filename := file_name
      sanitized_filename := []
      file_size_bytes := file_content.length
      mime_type := mime_type
      file_hash := "" }
  if file_content = [] then
    (false, "Empty file content", metadata)
  else
    let metadata := { metadata with sanitized_filename := sanitize_filename file_name }
    let mv := validate_mime_type cfg detected_mime_type mime_type
    if ¬ mv.1 then
      (false, mv.2, metadata)
    else
      match validate_file_size cfg file_content.length with
      | Except.error e =>
        (false, "File validation error: " ++ e, metadata)
      | Except.ok sv =>
        if ¬ sv.1 then
          (false, sv.2, metadata)
        else
          let metadata := { metadata with file_hash := hashFn file_content }
          if cfg.virus_scan_enabled then
            match scan with
            | ScanResult.clean => (true, "", metadata)
            | ScanResult.infected sig => (false, "Virus detected: " ++ sig, metadata)
            | ScanResult.failure msg => (false, "Virus scan error: " ++ msg, metadata)
          else
            (true, "", metadata)

/-- `StorageService.generate_presigned_url` from `storage_service.py`
lines 222-261: the path must start with `documents/` and contain no
`..` (line 239), and the requested expiry must lie in `[300, 7200]`
(line 242) — out-of-range values raise `ValueError("Invalid expiry
duration")`.  On success the S3 client is asked for a URL for exactly
the requested key and expiry, modelled as the `Except.ok` payload. -/
def generate_presigned_url (storage_path : Chars) (expiry_seconds : Int) :
    Except String (Chars × Int) :=
  if ¬ (startsWithDocuments storage_path) ∨ hasDotDot storage_path then
    Except.error "Invalid storage path"
  else if ¬ (300 ≤ expiry_seconds ∧ expiry_seconds ≤ 7200) then
    Except.error "Invalid expiry duration"
  else
    Except.ok (storage_path, expiry_seconds)

/-- `StorageService.download_file` from `storage_service.py` lines
138-178.  The S3 fetch is an external call, so the fetched `content`,
its `mime_type` and the stored custom metadata entry
`response['Metadata'].get('file_hash')` (`stored_hash`, `none` when the
key is absent) are inputs; `hashFn` stands for `generate_file_hash`
(`hashlib.sha256(...).hexdigest()`).  Python's `if stored_hash:` is
truthiness: the integrity comparison runs only for a present, non-empty
stored hash. -/
def download_file (hashFn : Bytes → String) (storage_path : Chars)
    (content : Bytes) (mime_type : String) (stored_hash : Option String) :
    Except String (Bytes × String) :=
  if ¬ (startsWithDocuments storage_path) ∨ hasDotDot storage_path then
    Except.error "Invalid storage path"
  else
    match stored_hash with
    | some h =>
      if h ≠ "" then
        if h ≠ hashFn content then Except.error "File integrity check failed"
        else Except.ok (content, mime_type)
      else Except.ok (content, mime_type)
    | none => Except.ok (content, mime_type)

/-- A value of mongoengine's `UUIDField` (a Python `uuid.UUID`), carried
by its string rendering, which is what `storage_path` interpolates. -/
structure Uuid where
  chars : Chars
deriving DecidableEq, Repr

/-- `DocumentStatus` from `document.py` lines 28-35. -/
inductive DocumentStatus
  | pending
  | uploaded
  | failed
  | deleted
deriving DecidableEq, Repr

/-- `VerificationStatus` from `document.py` lines 37-43. -/
inductive VerificationStatus
  | unverified
  | verified
  | rejected
deriving DecidableEq, Repr

/-- `ALLOWED_MIME_TYPES` from `document.py` lines 17-23. -/
def ALLOWED_MIME_TYPES : List String :=
  ["application/pdf", "image/jpeg", "image/png", "application/msword",
    "application/vnd.openxmlformats-officedocument.wordprocessingml.document"]

/-- `MAX_FILE_SIZE_MB` from `document.py` line 26. -/
def MAX_FILE_SIZE_MB : Nat := 50

/-- The `Document` record from `document.py` lines 46-78.
`file_size` is a `Nat` since it is always `len(file_content)`;
`uploaded_at` is modelled by whether its `tzinfo` is `timezone.utc`,
the only fact about it the embedded code inspects. -/
structure Document where
  id : Uuid
  application_id : Uuid
  file_name : Chars
  mime_type : String
  storage_path : Chars
  file_size : Nat
  uploaded_at_utc : Bool
  status : DocumentStatus
  verification_status : VerificationStatus
deriving DecidableEq, Repr

/-- `Document.validate` from `document.py` lines 100-151, as the
predicate "no `ValidationError` is raised".  The checks appear in
source order.  `0 <= file_size` holds by the `Nat` typing of
`file_size`; `uuid.UUID(str(...))` cannot fail on a `UUIDField` value
and the `isinstance` checks cannot fail on the enum-typed fields, so
those stages never reject. -/
def Document.validate (d : Document) : Bool :=
  if d.file_name = [] ∨ hasDotDot d.file_name ∨ d.file_name.contains '/' then
    false
  else if ¬ ALLOWED_MIME_TYPES.contains d.mime_type then
    false
  else if ¬ (d.file_size ≤ MAX_FILE_SIZE_MB * 1024 * 1024) then
    false
  else if ¬ startsWithDocuments d.storage_path ∨ hasDotDot d.storage_path then
    false
  else if ¬ d.uploaded_at_utc then
    false
  else
    true

/-- The storage path computed at `storage_service.py` line 96:
`f"documents/{application_id}/{document_id}/{sanitized_filename}"`. -/
def mkStoragePath (application_id document_id : Uuid) (sanitized : Chars) : Chars :=
  ("documents/").toList ++ application_id.chars ++ [ '/' ] ++
    document_id.chars ++ [ '/' ] ++ sanitized

/-- Outcome of the two backend calls (S3 `put_object`, mongoengine
`save`) during one attempt of the upload body: `true` means the call
returns, `false` that it raises. -/
structure AttemptEnv where
  s3Ok : Bool
  saveOk : Bool
deriving DecidableEq, Repr

/-- The distinct exception sites inside `upload_file`'s `try` block. -/
inductive UploadError
  | validation (msg : String)
  | s3Failure
  | documentValidation
  | saveFailure
deriving DecidableEq, Repr

/-- Result of a full `upload_file` call: the returned document or the
exception finally re-raised, together with how many times the decorated
body ran and how many S3 `put_object` and mongoengine `save` calls were
issued across all attempts. -/
structure UploadResult where
  result : Except UploadError Document
  attempts : Nat
  s3_put_calls : Nat
  save_calls : Nat
deriving DecidableEq, Repr

/-- The `Document(...)` constructed at `storage_service.py` lines
112-121: the sanitized filename from validation metadata, the derived
storage path, the content length, `status=UPLOADED`,
`verification_status=UNVERIFIED`, and an `uploaded_at` defaulted to
`datetime.now(timezone.utc)` (hence UTC). -/
def attemptDoc (cfg : ServiceConfig) (hashFn : Bytes → String)
    (detected_mime_type : String) (scan : ScanResult)
    (file_content : Bytes) (file_name : Chars) (mime_type : String)
    (application_id document_id : Uuid) : Document :=
  { id := document_id
    application_id := application_id
    file_name := (validate_file cfg hashFn detected_mime_type scan
      file_content mime_type file_name).2.2.sanitized_filename
    mime_type := mime_type
    storage_path := mkStoragePath application_id document_id
      (validate_file cfg hashFn detected_mime_type scan file_content
        mime_type file_name).2.2.sanitized_filename
    file_size := file_content.length
    uploaded_at_utc := true
    status := DocumentStatus.uploaded
    verification_status := VerificationStatus.unverified }

/-- One execution of the `upload_file` body, `storage_service.py` lines
88-128: validate, derive the storage path, S3 `put_object`,
`Document.validate`, `document.save()`.  Returns the outcome together
with the number of S3 put calls and save calls this attempt issued
(a raising call still counts as issued). -/
def upload_attempt (cfg : ServiceConfig) (hashFn : Bytes → String)
    (detected_mime_type : String) (scan : ScanResult)
    (file_content : Bytes) (file_name : Chars) (mime_type : String)
    (application_id document_id : Uuid) (env : AttemptEnv) :
    Except UploadError Document × Nat × Nat :=
  let v := validate_file cfg hashFn detected_mime_type scan file_content
    mime_type file_name
  if ¬ v.1 then
    (Except.error (UploadError.validation v.2.1), 0, 0)
  else if ¬ env.s3Ok then
    (Except.error UploadError.s3Failure, 1, 0)
  else
    let document := attemptDoc cfg hashFn detected_mime_type scan
      file_content file_name mime_type application_id document_id
    if ¬ document.validate then
      (Except.error UploadError.documentValidation, 1, 0)
    else if ¬ env.saveOk then
      (Except.error UploadError.saveFailure, 1, 1)
    else
      (Except.ok document, 1, 1)

/-- `StorageService.upload_file` from `storage_service.py` lines 66-132:
the body above under the tenacity decorator
`@retry(stop=stop_after_attempt(3), wait=wait_exponential(multiplier=1,
min=4, max=10))`, which re-runs the whole decorated body on any raised
exception, up to 3 attempts in total, then re-raises (the waits between
attempts are wall-clock timing and are not modelled).  `env i` gives
the backend outcomes seen by attempt `i`. -/
def upload_file (cfg : ServiceConfig) (hashFn : Bytes → String)
    (detected_mime_type : String) (scan : ScanResult)
    (file_content : Bytes) (file_name : Chars) (mime_type : String)
    (application_id document_id : Uuid) (env : Nat → AttemptEnv) :
    UploadResult :=
  match upload_attempt cfg hashFn detected_mime_type scan file_content
    file_name mime_type application_id document_id (env 0) with
  | (Except.ok d, p0, s0) =>
    { result := Except.ok d, attempts := 1, s3_put_calls := p0, save_calls := s0 }
  | (Except.error _, p0, s0) =>
    match upload_attempt cfg hashFn detected_mime_type scan file_content
      file_name mime_type application_id document_id (env 1) with
    | (Except.ok d, p1, s1) =>
      { result := Except.ok d, attempts := 2, s3_put_calls := p0 + p1,
        save_calls := s0 + s1 }
    | (Except.error _, p1, s1) =>
      let a2 := upload_attempt cfg hashFn detected_mime_type scan file_content
        file_name mime_type application_id document_id (env 2)
      { result := a2.1, attempts := 3, s3_put_calls := p0 + p1 + a2.2.1,
        save_calls := s0 + s1 + a2.2.2 }

/-- The `(status, verification_status)` pair of a persisted document
record. -/
structure RecordState where
  status : DocumentStatus
  verification_status : VerificationStatus
deriving DecidableEq, Repr

/-- The state in which `upload_file` persists every record
(`storage_service.py` lines 119-120): `UPLOADED` / `UNVERIFIED`.
No code path ever saves a record in `PENDING` or `FAILED`. -/
def initialRecordState : RecordState :=
  { status := DocumentStatus.uploaded
    verification_status := VerificationStatus.unverified }

/-- The metadata updates the service can apply to a persisted record:
`delete_file` sets `status = DELETED` on whatever record it finds by
storage path, with no precondition on the current status
(`storage_service.py` lines 210-213), and `verify_document` sets
`verification_status = VERIFIED` on whatever record it finds by id,
with no precondition on either field
(`document_controller.py` lines 315-325). -/
inductive RecordStep : RecordState → RecordState → Prop
  | delete (s : RecordState) :
    RecordStep s { s with status := DocumentStatus.deleted }
  | verify (s : RecordState) :
    RecordStep s { s with verification_status := VerificationStatus.verified }

/-- States a persisted record can reach from creation. -/
def ReachableRecord (s : RecordState) : Prop :=
  Relation.ReflTransGen RecordStep initialRecordState s

/-- The `service_config` dict as `config.py` actually builds it (lines
73-90): the five allow-listed MIME types, virus scanning enabled by
default, and **no** `max_file_size_mb` entry — that key is defined only
in `storage_config` (line 57), so the validator's lookup of it raises
`KeyError` on every call. -/
def serviceConfigWired : ServiceConfig :=
  { allowed_mime_types :=
      ["application/pdf", "image/jpeg", "image/png", "application/msword",
        "application/vnd.openxmlformats-officedocument.wordprocessingml.document"]
    max_file_size_mb := none
    virus_scan_enabled := true }

/-- A concrete application id for concrete runs. -/
def uuidA : Uuid := { chars := ("11111111-1111-1111-1111-111111111111").toList }

/-- A concrete document id for concrete runs. -/
def uuidB : Uuid := { chars := ("22222222-2222-2222-2222-222222222222").toList }

/-- Backend environment in which every call succeeds. -/
def envAllOk : Nat → AttemptEnv :=
  fun _ => { s3Ok := true, saveOk := true }

/-- A constant stand-in for the SHA-256 hex digest in concrete runs. -/
def hashConst : Bytes → String :=
  fun _ => "h"

/-- A file of exactly `100 * 1024 * 1024` bytes — the boundary of the
100MB default that `config.py` line 57 stores (in `storage_config`) for
`MAX_FILE_SIZE_MB`. -/
def boundaryContent : Bytes :=
  List.replicate (100 * 1024 * 1024) 0

/-- A concrete well-formed record used to instantiate `Document.validate`
facts. -/
def docOK : Document :=
  { id := uuidB
    application_id := uuidA
    file_name := ("a.pdf").toList
    mime_type := "application/pdf"
    storage_path := mkStoragePath uuidA uuidB ("a.pdf").toList
    file_size := 1
    uploaded_at_utc := true
    status := DocumentStatus.uploaded
    verification_status := VerificationStatus.unverified }

/- ------------------------------------------------------------------ -/
/- Theorems                                                            -/
/- ------------------------------------------------------------------ -/

/-- Claim C6: for every sniffed type, claimed type and configured
allow-list, `validate_mime_type` fails whenever the sniffed type differs
from the claimed type (the code compares MIME types case-insensitively,
matching MIME-type equality), regardless of the allow-list contents:
the allow-list is not consulted on the mismatch path. -/
theorem C6_mime_mismatch_fails_regardless_of_allowlist
    (cfg : ServiceConfig) (detected claimed : String)
    (h : pyLower detected ≠ pyLower claimed) :
    (validate_mime_type cfg detected claimed).1 = false := by
  simp [validate_mime_type, h]

/-- Witness for C6: a PDF-claiming upload whose content sniffs as a
Windows executable fails even with that executable type allow-listed. -/
theorem C6_witness :
    pyLower "application/x-msdownload" ≠ pyLower "application/pdf" ∧
      (validate_mime_type
        { allowed_mime_types := ["application/x-msdownload"]
          max_file_size_mb := none
          virus_scan_enabled := false }
        "application/x-msdownload" "application/pdf").1 = false :=
  ⟨by decide,
    C6_mime_mismatch_fails_regardless_of_allowlist
      { allowed_mime_types := ["application/x-msdownload"]
        max_file_size_mb := none
        virus_scan_enabled := false }
      "application/x-msdownload" "application/pdf" (by decide)⟩

/-- Claim C8, code bug: `validate_file_size` reads
`service_config['max_file_size_mb']`, but `config.py` defines that key
only in `storage_config`, so in the wired configuration the lookup
raises `KeyError` for every byte length: the boundary file does not
pass, and `validate_file` reports the generic
`File validation error: 'max_file_size_mb'` reason instead of the
size-specific one.  Had the key been present with value `M`, the
comparison would behave exactly as the claim states: `M*1024*1024`
bytes passes and one byte more fails with the size-specific reason. -/
theorem C8_size_stage_raises_key_error :
    (∀ n : Nat, validate_file_size serviceConfigWired n =
      Except.error "'max_file_size_mb'") ∧
    (∀ M : Nat,
      validate_file_size { serviceConfigWired with max_file_size_mb := some M }
          (M * 1024 * 1024) = Except.ok (true, "") ∧
      validate_file_size { serviceConfigWired with max_file_size_mb := some M }
          (M * 1024 * 1024 + 1) = Except.ok (false, sizeExceededMsg)) ∧
    ((validate_file serviceConfigWired hashConst "application/pdf"
        ScanResult.clean boundaryContent "application/pdf"
        ("a.pdf").toList).1 = false ∧
     (validate_file serviceConfigWired hashConst "application/pdf"
        ScanResult.clean boundaryContent "application/pdf"
        ("a.pdf").toList).2.1 =
       "File validation error: " ++ "'max_file_size_mb'") := by
  refine ⟨fun n => rfl, fun M => ⟨?_, ?_⟩, ?_⟩
  · have h : ¬ (((M * 1024 * 1024 : ℕ) : ℚ) / (1024 * 1024) > (M : ℚ)) := by
      push_cast
      rw [gt_iff_lt, not_lt, div_le_iff₀ (by norm_num : (0:ℚ) < 1024 * 1024)]
      ring_nf
      exact le_rfl
    simp only [validate_file_size]
    rw [if_neg h]
  · have h : (((M * 1024 * 1024 + 1 : ℕ) : ℚ)) / (1024 * 1024) > (M : ℚ) := by
      push_cast
      rw [gt_iff_lt, lt_div_iff₀ (by norm_num : (0:ℚ) < 1024 * 1024)]
      ring_nf
      linarith [le_refl ((M : ℚ) * 1048576)]
    simp only [validate_file_size]
    rw [if_pos h]
  · have hlen : boundaryContent.length = 100 * 1024 * 1024 :=
      List.length_replicate _ _
    have hne : boundaryContent ≠ [] := by
      intro hc
      have h2 := congrArg List.length hc
      rw [hlen] at h2
      norm_num at h2
    constructor
    · unfold validate_file
      rw [if_neg hne]
      decide
    · unfold validate_file
      rw [if_neg hne]
      decide

/-- Counterexample for claim C4: the code does not clamp the requested
expiry into the configured range — a request of 10 seconds on a valid
path raises `ValueError("Invalid expiry duration")` instead of
producing a URL with a 300-second expiry. -/
theorem C4_counterexample :
    generate_presigned_url ("documents/app/doc/file.pdf").toList 10 =
      Except.error "Invalid expiry duration" := by
  rfl

/-- Claim C4 as amended: `generate_presigned_url` rejects (raises) any
caller-requested expiry outside the configured range `[300, 7200]`
seconds rather than clamping it; an in-range expiry yields a URL for
exactly the requested expiry; paths failing the `documents/` prefix or
traversal check are rejected. -/
theorem C4_presign_range_check_and_path_check
    (storage_path : Chars) (expiry_seconds : Int) :
    ((¬ startsWithDocuments storage_path = true ∨ hasDotDot storage_path = true) →
      generate_presigned_url storage_path expiry_seconds =
        Except.error "Invalid storage path") ∧
    (startsWithDocuments storage_path = true → hasDotDot storage_path = false →
      ((300 ≤ expiry_seconds ∧ expiry_seconds ≤ 7200 →
        generate_presigned_url storage_path expiry_seconds =
          Except.ok (storage_path, expiry_seconds)) ∧
       (¬ (300 ≤ expiry_seconds ∧ expiry_seconds ≤ 7200) →
        generate_presigned_url storage_path expiry_seconds =
          Except.error "Invalid expiry duration"))) := by
  constructor
  · intro hc
    simp only [generate_presigned_url]
    rw [if_pos hc]
  · intro hp hd
    have hc : ¬ (¬ startsWithDocuments storage_path = true ∨
        hasDotDot storage_path = true) := by
      simp [hp, hd]
    constructor
    · intro hr
      simp only [generate_presigned_url]
      rw [if_neg hc, if_neg (not_not_intro hr)]
    · intro hr
      simp only [generate_presigned_url]
      rw [if_neg hc, if_pos hr]

/-- Witness for the amended C4: a valid path with an in-range expiry
produces a URL for exactly that expiry. -/
theorem C4_witness :
    generate_presigned_url ("documents/app/doc/file.pdf").toList 3600 =
      Except.ok (("documents/app/doc/file.pdf").toList, 3600) :=
  ((C4_presign_range_check_and_path_check
      ("documents/app/doc/file.pdf").toList 3600).2
    (by decide) (by decide)).1 (by decide)

/-- Claim C9: on a valid path, `download_file` skips the integrity
verification entirely when the stored metadata has no `file_hash` entry
and returns the fetched bytes; an integrity failure can only arise from
a present (non-empty) stored hash that differs from the recomputed
hash. -/
theorem C9_download_integrity_check_requires_stored_hash
    (hashFn : Bytes → String) (storage_path : Chars)
    (content : Bytes) (mime_type : String) (stored_hash : Option String)
    (hp : startsWithDocuments storage_path = true)
    (hd : hasDotDot storage_path = false) :
    (stored_hash = none →
      download_file hashFn storage_path content mime_type stored_hash =
        Except.ok (content, mime_type)) ∧
    (download_file hashFn storage_path content mime_type stored_hash =
        Except.error "File integrity check failed" →
      ∃ h, stored_hash = some h ∧ h ≠ "" ∧ h ≠ hashFn content) := by
  have hc : ¬ (¬ startsWithDocuments storage_path = true ∨
      hasDotDot storage_path = true) := by
    simp [hp, hd]
  constructor
  · intro hn
    subst hn
    simp only [download_file]
    rw [if_neg hc]
  · intro herr
    simp only [download_file] at herr
    rw [if_neg hc] at herr
    cases hs : stored_hash with
    | none =>
      rw [hs] at herr
      simp at herr
    | some h =>
      rw [hs] at herr
      by_cases h1 : h = ""
      · simp [h1] at herr
      · by_cases h2 : h = hashFn content
        · simp [h1, h2] at herr
        · exact ⟨h, rfl, h1, h2⟩

/-- Witness for C9: a fetch whose object metadata lacks `file_hash`
returns the bytes unchanged, with no integrity error. -/
theorem C9_witness :
    download_file (fun _ => "x") ("documents/a/b/c.pdf").toList [1, 2]
        "application/pdf" none =
      Except.ok ([1, 2], "application/pdf") :=
  (C9_download_integrity_check_requires_stored_hash (fun _ => "x")
    ("documents/a/b/c.pdf").toList [1, 2] "application/pdf" none
    (by decide) (by decide)).1 rfl

/-- Every element of `removeChar c l` is an element of `l` other than
`c`. -/
theorem mem_removeChar {x c : Char} {l : Chars} (h : x ∈ removeChar c l) :
    x ∈ l ∧ x ≠ c := by
  simpa [removeChar] using (List.mem_filter.mp h)

/-- `removeChar` leaves a list without the character unchanged. -/
theorem removeChar_eq_self {c : Char} {l : Chars} (h : c ∉ l) :
    removeChar c l = l := by
  rw [removeChar, List.filter_eq_self]
  intro a ha
  simp only [ne_eq, decide_eq_true_eq]
  intro hac
  exact h (hac ▸ ha)

/-- `replaceDotDot` only ever keeps characters of its input. -/
theorem mem_replaceDotDot {x : Char} : ∀ {l : Chars},
    x ∈ replaceDotDot l → x ∈ l
  | [], h => by simp [replaceDotDot] at h
  | [c], h => by simpa [replaceDotDot] using h
  | a :: b :: rest, h => by
    rw [replaceDotDot] at h
    by_cases hab : a = '.' ∧ b = '.'
    · rw [if_pos hab] at h
      exact List.mem_cons_of_mem a (List.mem_cons_of_mem b (mem_replaceDotDot h))
    · rw [if_neg hab] at h
      rcases List.mem_cons.mp h with h | h
      · exact h ▸ List.mem_cons_self a (b :: rest)
      · exact List.mem_cons_of_mem a (mem_replaceDotDot h)

/-- A list with no `..` substring is unchanged by `replaceDotDot`. -/
theorem replaceDotDot_eq_self : ∀ {l : Chars},
    hasDotDot l = false → replaceDotDot l = l
  | [], _ => rfl
  | [_], _ => rfl
  | a :: b :: rest, h => by
    rw [hasDotDot] at h
    have hab : ¬ (a = '.' ∧ b = '.') := by
      intro hc
      simp [hc.1, hc.2] at h
    have htail : hasDotDot (b :: rest) = false := by
      rcases Bool.or_eq_false_iff.mp h with ⟨_, h2⟩
      exact h2
    rw [replaceDotDot, if_neg hab, replaceDotDot_eq_self htail]

/-- A list with no slash is unchanged by `basename`. -/
theorem basename_eq_self {l : Chars} (h : '/' ∉ l) : basename l = l := by
  rw [basename, List.takeWhile_eq_self_iff.mpr, List.reverse_reverse]
  intro x hx
  simp only [ne_eq, decide_eq_true_eq]
  intro hxs
  exact h (hxs ▸ (List.mem_reverse.mp hx))

/-- After folding `removeChar` over a list of characters, none of those
characters remain. -/
theorem not_mem_foldl_removeChar : ∀ (cs : List Char) (l : Chars) (c : Char),
    c ∈ cs → c ∉ cs.foldl (fun acc x => removeChar x acc) l
  | [], _, _, h => absurd h (List.not_mem_nil _)
  | d :: cs, l, c, h => by
    rcases List.mem_cons.mp h with hc | hc
    · subst hc
      intro hmem
      have hseed : ∀ (cs' : List Char) (l' : Chars) (x : Char),
          x ∈ cs'.foldl (fun acc y => removeChar y acc) l' → x ∈ l' := by
        intro cs'
        induction cs' with
        | nil => intro l' x hx; simpa using hx
        | cons e es ih =>
          intro l' x hx
          exact (mem_removeChar (ih (removeChar e l') x hx)).1
      exact ((mem_removeChar (hseed cs (removeChar c l) c hmem)).2) rfl
    · exact not_mem_foldl_removeChar cs (removeChar d l) c hc

/-- Membership in the result of the fold implies membership in the
seed list. -/
theorem mem_of_mem_foldl_removeChar : ∀ (cs : List Char) (l : Chars) (x : Char),
    x ∈ cs.foldl (fun acc y => removeChar y acc) l → x ∈ l
  | [], _, _, hx => by simpa using hx
  | d :: cs, l, x, hx =>
    (mem_removeChar (mem_of_mem_foldl_removeChar cs (removeChar d l) x hx)).1

/-- A seed containing none of the characters is unchanged by the fold. -/
theorem foldl_removeChar_eq_self : ∀ (cs : List Char) (l : Chars),
    (∀ c ∈ cs, c ∉ l) → cs.foldl (fun acc x => removeChar x acc) l = l
  | [], _, _ => rfl
  | d :: cs, l, h => by
    rw [List.foldl_cons, removeChar_eq_self (h d (List.mem_cons_self d cs)),
      foldl_removeChar_eq_self cs l (fun c hc => h c (List.mem_cons_of_mem d hc))]

/-- The sanitized filename contains no slash, no backslash, and none of
the other single forbidden characters. -/
theorem sanitize_filename_forbidden_not_mem (f : Chars) :
    '/' ∉ sanitize_filename f ∧ '\\' ∉ sanitize_filename f ∧
      ∀ c ∈ forbiddenAfterDotDot, c ∉ sanitize_filename f := by
  refine ⟨?_, ?_, ?_⟩
  · intro hmem
    have h1 := mem_of_mem_foldl_removeChar _ _ _ hmem
    have h2 := mem_replaceDotDot h1
    have h3 := mem_removeChar h2
    exact (mem_removeChar h3.1).2 rfl
  · intro hmem
    have h1 := mem_of_mem_foldl_removeChar _ _ _ hmem
    have h2 := mem_replaceDotDot h1
    exact (mem_removeChar h2).2 rfl
  · intro c hc
    exact not_mem_foldl_removeChar _ _ _ hc

/-- Counterexample for claim C7: sanitizing `.;.` removes the `;` after
the `..`-removal pass has already run, creating the name `..`; a second
sanitization removes it, yielding the empty name — sanitization is not
idempotent. -/
theorem C7_counterexample :
    sanitize_filename (sanitize_filename (".;.").toList) ≠
      sanitize_filename (".;.").toList := by
  decide

/-- Claim C7 as amended: `sanitize_filename` is idempotent on every
filename whose sanitized form contains no `..` — the only failure mode
is that removing one of the forbidden characters listed after `..` can
create a new `..`, which only a second pass removes. -/
theorem C7_sanitize_idempotent_when_no_dotdot (f : Chars)
    (h : hasDotDot (sanitize_filename f) = false) :
    sanitize_filename (sanitize_filename f) = sanitize_filename f := by
  obtain ⟨hs, hb, hrest⟩ := sanitize_filename_forbidden_not_mem f
  conv_lhs => rw [sanitize_filename]
  rw [basename_eq_self hs, removeChar_eq_self hs, removeChar_eq_self hb,
    replaceDotDot_eq_self h]
  exact foldl_removeChar_eq_self _ _ (fun c hc => hrest c hc)

/-- Witness for the amended C7: an ordinary already-clean filename is a
fixed point of sanitization. -/
theorem C7_witness :
    hasDotDot (sanitize_filename ("report.pdf").toList) = false ∧
      sanitize_filename (sanitize_filename ("report.pdf").toList) =
        sanitize_filename ("report.pdf").toList :=
  ⟨by decide,
    C7_sanitize_idempotent_when_no_dotdot ("report.pdf").toList (by decide)⟩

/-- `Document.validate` acceptance implies every individual check
passed. -/
theorem validate_implications (d : Document) (h : d.validate = true) :
    d.file_name ≠ [] ∧ hasDotDot d.file_name = false ∧
      d.file_name.contains '/' = false ∧
      ALLOWED_MIME_TYPES.contains d.mime_type = true ∧
      d.file_size ≤ MAX_FILE_SIZE_MB * 1024 * 1024 ∧
      startsWithDocuments d.storage_path = true ∧
      hasDotDot d.storage_path = false ∧
      d.uploaded_at_utc = true := by
  simp only [Document.validate] at h
  split at h
  · exact absurd h (by simp)
  · split at h
    · exact absurd h (by simp)
    · split at h
      · exact absurd h (by simp)
      · split at h
        · exact absurd h (by simp)
        · split at h
          · exact absurd h (by simp)
          · rename_i h1 h2 h3 h4 h5
            push_neg at h1 h4
            refine ⟨h1.1, ?_, ?_, ?_, ?_, ?_, ?_, ?_⟩
            · simpa using h1.2.1
            · simpa using h1.2.2
            · simpa using h2
            · simpa using h3
            · simpa using h4.1
            · simpa using h4.2
            · simpa using h5

/-- When validation fails, the upload body raises before either backend
call, whatever the backend environment. -/
theorem upload_attempt_of_invalid (cfg : ServiceConfig) (hashFn : Bytes → String)
    (detected : String) (scan : ScanResult) (content : Bytes)
    (file_name : Chars) (mime : String) (appId docId : Uuid) (env : AttemptEnv)
    (h : (validate_file cfg hashFn detected scan content mime file_name).1 = false) :
    upload_attempt cfg hashFn detected scan content file_name mime appId docId env =
      (Except.error (UploadError.validation
        (validate_file cfg hashFn detected scan content mime file_name).2.1), 0, 0) := by
  simp [upload_attempt, h]

/-- With the configuration as wired, validation never succeeds: empty
content fails, a MIME mismatch or disallowed type fails, and every
remaining upload dies at the size stage, whose config lookup raises. -/
theorem validate_file_wired_never_passes (hashFn : Bytes → String)
    (detected : String) (scan : ScanResult) (content : Bytes)
    (mime : String) (file_name : Chars) :
    (validate_file serviceConfigWired hashFn detected scan content mime
      file_name).1 = false := by
  by_cases hne : content = []
  · simp [validate_file, hne]
  · have hv : validate_file_size serviceConfigWired content.length =
        Except.error "'max_file_size_mb'" := rfl
    unfold validate_file
    rw [if_neg hne]
    by_cases hm : (validate_mime_type serviceConfigWired detected mime).1
    · simp [hm, hv]
    · simp [hm]

/-- Claim C2 as amended: the bounded retry (3 attempts, exponential
backoff starting at 4s, capped at 10s) is a single decorator wrapping
the entire `upload_file` body — validation included — with no separate
per-backend-call retry: a validation failure is re-attempted until the
3 attempts are exhausted instead of failing exactly once, still with no
object-store write and no metadata write. -/
theorem C2_retry_wraps_entire_upload (cfg : ServiceConfig)
    (hashFn : Bytes → String) (detected : String) (scan : ScanResult)
    (content : Bytes) (file_name : Chars) (mime : String)
    (appId docId : Uuid) (env : Nat → AttemptEnv)
    (h : (validate_file cfg hashFn detected scan content mime file_name).1 = false) :
    (upload_file cfg hashFn detected scan content file_name mime appId docId env).attempts = 3 ∧
    (upload_file cfg hashFn detected scan content file_name mime appId docId env).result =
      Except.error (UploadError.validation
        (validate_file cfg hashFn detected scan content mime file_name).2.1) ∧
    (upload_file cfg hashFn detected scan content file_name mime appId docId env).s3_put_calls = 0 ∧
    (upload_file cfg hashFn detected scan content file_name mime appId docId env).save_calls = 0 := by
  have ha : ∀ e : AttemptEnv,
      upload_attempt cfg hashFn detected scan content file_name mime appId docId e =
        (Except.error (UploadError.validation
          (validate_file cfg hashFn detected scan content mime file_name).2.1), 0, 0) :=
    fun e => upload_attempt_of_invalid cfg hashFn detected scan content file_name
      mime appId docId e h
  refine ⟨?_, ?_, ?_, ?_⟩ <;> simp [upload_file, ha]

/-- Witness for the amended C2: a MIME-mismatching upload under the
wired configuration is attempted 3 times before failing. -/
theorem C2_witness :
    (upload_file serviceConfigWired hashConst "application/x-msdownload"
      ScanResult.clean [37] ("a.pdf").toList "application/pdf" uuidA uuidB
      envAllOk).attempts = 3 :=
  (C2_retry_wraps_entire_upload serviceConfigWired hashConst
    "application/x-msdownload" ScanResult.clean [37] ("a.pdf").toList
    "application/pdf" uuidA uuidB envAllOk (by decide)).1

/-- Counterexample for claim C2: a deterministically failing validation
(claimed `application/pdf`, sniffed `application/x-msdownload`) does
not make `upload_file` fail exactly once — the decorated body runs 3
times. -/
theorem C2_counterexample :
    (upload_file serviceConfigWired hashConst "application/x-msdownload"
      ScanResult.clean [37] ("a.pdf").toList "application/pdf" uuidA uuidB
      envAllOk).attempts = 3 ∧
    (3 : Nat) ≠ 1 := by
  constructor
  · decide
  · decide

/-- Claim C5: an upload whose content fails validation performs no
object-store write and no metadata-store write, failing with the
validation error. -/
theorem C5_validation_failure_no_side_effects (cfg : ServiceConfig)
    (hashFn : Bytes → String) (detected : String) (scan : ScanResult)
    (content : Bytes) (file_name : Chars) (mime : String)
    (appId docId : Uuid) (env : Nat → AttemptEnv)
    (h : (validate_file cfg hashFn detected scan content mime file_name).1 = false) :
    (upload_file cfg hashFn detected scan content file_name mime appId docId env).s3_put_calls = 0 ∧
    (upload_file cfg hashFn detected scan content file_name mime appId docId env).save_calls = 0 ∧
    (upload_file cfg hashFn detected scan content file_name mime appId docId env).result =
      Except.error (UploadError.validation
        (validate_file cfg hashFn detected scan content mime file_name).2.1) := by
  have ha : ∀ e : AttemptEnv,
      upload_attempt cfg hashFn detected scan content file_name mime appId docId e =
        (Except.error (UploadError.validation
          (validate_file cfg hashFn detected scan content mime file_name).2.1), 0, 0) :=
    fun e => upload_attempt_of_invalid cfg hashFn detected scan content file_name
      mime appId docId e h
  refine ⟨?_, ?_, ?_⟩ <;> simp [upload_file, ha]

/-- Witness for C5 (the spec's Scenario B): claimed `application/pdf`,
content sniffing as `application/x-msdownload`, under the wired
configuration — no S3 put is issued. -/
theorem C5_witness :
    (upload_file serviceConfigWired hashConst "application/x-msdownload"
      ScanResult.clean [37] ("a.pdf").toList "application/pdf" uuidA uuidB
      envAllOk).s3_put_calls = 0 :=
  (C5_validation_failure_no_side_effects serviceConfigWired hashConst
    "application/x-msdownload" ScanResult.clean [37] ("a.pdf").toList
    "application/pdf" uuidA uuidB envAllOk (by decide)).1

/-- Claim C1, code bug: the derivation at `storage_service.py` line 96
(`documents/{application_id}/{document_id}/{sanitized_name}`) is
prefix-correct and traversal-free for the sanitized inputs, but the
program as wired can never produce a document record at all: every
upload — here a fully valid 1-byte PDF — fails validation at the size
stage (`KeyError('max_file_size_mb')`), before the object write and the
record construction, contradicting the repository's own
`test_upload_document`, which asserts a successful upload. -/
theorem C1_upload_never_produces_record :
    (upload_file serviceConfigWired hashConst "application/pdf" ScanResult.clean
        [37] ("a.pdf").toList "application/pdf" uuidA uuidB envAllOk).result =
      Except.error (UploadError.validation
        ("File validation error: " ++ "'max_file_size_mb'")) ∧
    (upload_file serviceConfigWired hashConst "application/pdf" ScanResult.clean
        [37] ("a.pdf").toList "application/pdf" uuidA uuidB envAllOk).s3_put_calls = 0 ∧
    (upload_file serviceConfigWired hashConst "application/pdf" ScanResult.clean
        [37] ("a.pdf").toList "application/pdf" uuidA uuidB envAllOk).save_calls = 0 ∧
    startsWithDocuments (mkStoragePath uuidA uuidB
      (sanitize_filename ("a.pdf").toList)) = true ∧
    hasDotDot (mkStoragePath uuidA uuidB
      (sanitize_filename ("a.pdf").toList)) = false := by
  refine ⟨?_, ?_, ?_, ?_, ?_⟩ <;> decide

/-- Counterexample for claim C10: the effective upload ceiling is not
the model's fixed 50MB constant — even a 1-byte upload, far below that
ceiling, fails, because the validator's size stage raises before
`Document.validate` is ever consulted, so no record is persisted. -/
theorem C10_counterexample :
    (1 : Nat) ≤ MAX_FILE_SIZE_MB * 1024 * 1024 ∧
    (upload_file serviceConfigWired hashConst "application/pdf" ScanResult.clean
        [1] ("b.pdf").toList "application/pdf" uuidA uuidB envAllOk).result =
      Except.error (UploadError.validation
        ("File validation error: " ++ "'max_file_size_mb'")) := by
  constructor
  · decide
  · decide

/-- Claim C10 as amended: every record accepted by `Document.validate`
has `file_size` at most the fixed 50MB constant, an allow-listed MIME
type, and a non-empty file name free of `/` and `..`; but `upload_file`
as wired persists no record at all — every upload fails validation (the
size-stage config lookup raises), with no object-store write and no
metadata write, so the model's ceiling is never exercised. -/
theorem C10_validate_bounds_and_wired_upload_never_persists :
    (∀ d : Document, d.validate = true →
      d.file_size ≤ MAX_FILE_SIZE_MB * 1024 * 1024 ∧
      ALLOWED_MIME_TYPES.contains d.mime_type = true ∧
      d.file_name ≠ [] ∧ d.file_name.contains '/' = false ∧
      hasDotDot d.file_name = false) ∧
    (∀ (hashFn : Bytes → String) (detected : String) (scan : ScanResult)
        (content : Bytes) (file_name : Chars) (mime : String)
        (appId docId : Uuid) (env : Nat → AttemptEnv),
      (upload_file serviceConfigWired hashFn detected scan content file_name
        mime appId docId env).result =
          Except.error (UploadError.validation
            (validate_file serviceConfigWired hashFn detected scan content
              mime file_name).2.1) ∧
      (upload_file serviceConfigWired hashFn detected scan content file_name
        mime appId docId env).s3_put_calls = 0 ∧
      (upload_file serviceConfigWired hashFn detected scan content file_name
        mime appId docId env).save_calls = 0) := by
  constructor
  · intro d h
    obtain ⟨h1, h2, h3, h4, h5, -, -, -⟩ := validate_implications d h
    exact ⟨h5, h4, h1, h3, h2⟩
  · intro hashFn detected scan content file_name mime appId docId env
    have h := validate_file_wired_never_passes hashFn detected scan content
      mime file_name
    have ha : ∀ e : AttemptEnv,
        upload_attempt serviceConfigWired hashFn detected scan content
          file_name mime appId docId e =
          (Except.error (UploadError.validation
            (validate_file serviceConfigWired hashFn detected scan content
              mime file_name).2.1), 0, 0) :=
      fun e => upload_attempt_of_invalid serviceConfigWired hashFn detected
        scan content file_name mime appId docId e h
    refine ⟨?_, ?_, ?_⟩ <;> simp [upload_file, ha]

/-- Witness for the amended C10: the concrete record `docOK` is
accepted by `Document.validate` and sits within the 50MB bound. -/
theorem C10_witness :
    docOK.validate = true ∧
      docOK.file_size ≤ MAX_FILE_SIZE_MB * 1024 * 1024 := by
  have hd : docOK.validate = true := by decide
  exact ⟨hd,
    (C10_validate_bounds_and_wired_upload_never_persists.1 docOK hd).1⟩

/-- Counterexample for claim C3: a deleted record is reachable, and the
code still performs the `UNVERIFIED → VERIFIED` transition on it —
`verify_document` does not require `status = UPLOADED`. -/
theorem C3_counterexample :
    ReachableRecord { status := DocumentStatus.deleted
                      verification_status := VerificationStatus.unverified } ∧
      RecordStep { status := DocumentStatus.deleted
                   verification_status := VerificationStatus.unverified }
        { status := DocumentStatus.deleted
          verification_status := VerificationStatus.verified } ∧
      DocumentStatus.deleted ≠ DocumentStatus.uploaded := by
  refine ⟨?_, ?_, by decide⟩
  · exact Relation.ReflTransGen.single (RecordStep.delete initialRecordState)
  · exact RecordStep.verify { status := DocumentStatus.deleted
                              verification_status := VerificationStatus.unverified }

/-- Claim C3 as amended: persisted records are created at
`UPLOADED`/`UNVERIFIED` (never `PENDING` or `FAILED`), the only status
change is `UPLOADED → DELETED` with `DELETED` terminal, and the only
verification change is `UNVERIFIED → VERIFIED` with `VERIFIED` terminal
and `REJECTED` unreachable — but the verification transition is
available in any status, including `DELETED`, not only `UPLOADED`. -/
theorem C3_lifecycle (s s' : RecordState)
    (hr : ReachableRecord s) (hstep : RecordStep s s') :
    (s.status = DocumentStatus.uploaded ∨ s.status = DocumentStatus.deleted) ∧
      (s.verification_status = VerificationStatus.unverified ∨
        s.verification_status = VerificationStatus.verified) ∧
      (s'.status = s.status ∨
        (s.status = DocumentStatus.uploaded ∧ s'.status = DocumentStatus.deleted)) ∧
      (s.status = DocumentStatus.deleted → s'.status = DocumentStatus.deleted) ∧
      (s'.verification_status = s.verification_status ∨
        (s.verification_status = VerificationStatus.unverified ∧
          s'.verification_status = VerificationStatus.verified)) ∧
      (s.verification_status = VerificationStatus.verified →
        s'.verification_status = VerificationStatus.verified) := by
  have hinv : ∀ t : RecordState, ReachableRecord t →
      (t.status = DocumentStatus.uploaded ∨ t.status = DocumentStatus.deleted) ∧
      (t.verification_status = VerificationStatus.unverified ∨
        t.verification_status = VerificationStatus.verified) := by
    intro t ht
    induction ht with
    | refl => exact ⟨Or.inl rfl, Or.inl rfl⟩
    | tail _ hbc ih =>
      cases hbc with
      | delete => exact ⟨Or.inr rfl, ih.2⟩
      | verify => exact ⟨ih.1, Or.inr rfl⟩
  obtain ⟨hst, hver⟩ := hinv s hr
  cases hstep with
  | delete =>
    refine ⟨hst, hver, ?_, fun _ => rfl, Or.inl rfl, fun hv => hv⟩
    rcases hst with hu | hd
    · exact Or.inr ⟨hu, rfl⟩
    · exact Or.inl (by rw [hd])
  | verify =>
    refine ⟨hst, hver, Or.inl rfl, fun hd => hd, ?_, fun _ => rfl⟩
    rcases hver with hu | hv
    · exact Or.inr ⟨hu, rfl⟩
    · exact Or.inl (by rw [hv])

/-- Witness for the amended C3: the delete step from the initial state
moves status from `UPLOADED` to `DELETED`. -/
theorem C3_witness :
    ({ initialRecordState with status := DocumentStatus.deleted } : RecordState).status =
        initialRecordState.status ∨
      (initialRecordState.status = DocumentStatus.uploaded ∧
        ({ initialRecordState with status := DocumentStatus.deleted } : RecordState).status =
          DocumentStatus.deleted) :=
  (C3_lifecycle initialRecordState
    { initialRecordState with status := DocumentStatus.deleted }
    Relation.ReflTransGen.refl (RecordStep.delete initialRecordState)).2.2.1
